import Mathlib

set_option maxRecDepth 4000

namespace DCA

/-- A file path, kept as the directory part plus the file name, mirroring how the
program builds every path it touches (`some_dir / some_name` in pathlib). -/
structure FPath where
  dir : String
  name : String
deriving DecidableEq, Repr

/-- The character for a single decimal digit value. -/
def dCh (d : Nat) : Char := Char.ofNat (48 + d)

/-- The four zero-padded digit characters that Python's format `04d` produces for
numbers below 10000. -/
def fourDigits (n : Nat) : List Char :=
  [dCh (n / 1000 % 10), dCh (n / 100 % 10), dCh (n / 10 % 10), dCh (n % 10)]

/-- Python's format `04d`: zero-pad to four digits; larger numbers print in full. -/
def pad4 (n : Nat) : String :=
  if n < 10000 then ⟨fourDigits n⟩ else toString n

/-- Boolean test that the first list is an initial segment of the second. -/
def pfx : List Char → List Char → Bool
  | [], _ => true
  | _ :: _, [] => false
  | a :: as, b :: bs => a == b && pfx as bs

/-- One pattern rule of `extract_episode_number`: a literal before the digit
group, the digit-count bounds of the group (regex repetition `dmin` to `dmax`),
and a literal required immediately after the group. Every rule in the source has
this shape. -/
structure Pat where
  pre : List Char
  dmin : Nat
  dmax : Nat
  suf : List Char

/-- Numeric value of a run of digit characters, as Python `int` of the group. -/
def digitsToNat (l : List Char) : Nat :=
  l.foldl (fun a c => 10 * a + (c.toNat - 48)) 0

/-- Greedy matching of the digit group plus trailing literal: try the longest
digit count first and back off one at a time, exactly as the regex engine treats
a bounded digit repetition followed by a literal. All source patterns require at
least one digit, so zero remaining attempts yield no match. -/
def tryLens (rest suf : List Char) (dmin : Nat) : Nat → Option Nat
  | 0 => none
  | len + 1 =>
    if len + 1 < dmin then none
    else
      let ds := rest.take (len + 1)
      if (ds.length == len + 1) && ds.all Char.isDigit && pfx suf (rest.drop (len + 1)) then
        some (digitsToNat ds)
      else
        tryLens rest suf dmin len

/-- Attempt to match a pattern starting exactly at the head of `s`. -/
def matchAt (s : List Char) (p : Pat) : Option Nat :=
  if pfx p.pre s then tryLens (s.drop p.pre.length) p.suf p.dmin p.dmax else none

/-- `re.search` semantics for these patterns: try the pattern anchored at each
position from the left; the first position that matches wins. -/
def searchFrom : List Char → Pat → Option Nat
  | [], p => matchAt [] p
  | a :: t, p =>
    match matchAt (a :: t) p with
    | some v => some v
    | none => searchFrom t p

def pat1 : Pat := ⟨"[Erai-raws] Detective Conan - ".data, 4, 4, " [1080p][Multiple Subtitle]".data⟩
def pat2 : Pat := ⟨"[RAW Reghost-Fabre] Detective Conan ".data, 1, 4, []⟩
def pat3 : Pat := ⟨"[Crunchyroll] Detective Conan - ".data, 1, 4, " [Multi-Sub]".data⟩
def pat4 : Pat := ⟨"[Fabre-RAW] Detective Conan Remastered ".data, 4, 4, []⟩
def pat5 : Pat := ⟨"[Fabre-RAW] Detective Conan ".data, 4, 4, []⟩
def pat6 : Pat := ⟨"[Erai-raws] Detective Conan - ".data, 4, 4, []⟩
def pat7 : Pat := ⟨"Detective Conan ".data, 4, 4, []⟩

/-- The ordered pattern list of `extract_episode_number`. -/
def patterns : List Pat := [pat1, pat2, pat3, pat4, pat5, pat6, pat7]

/-- Try each pattern in order; the first search hit is returned. -/
def extractList : List Pat → List Char → Option Nat
  | [], _ => none
  | p :: ps, l =>
    match searchFrom l p with
    | some v => some v
    | none => extractList ps l

/-- `extract_episode_number`: ordered pattern rules, first match wins, `none`
when no rule matches. -/
def extract_episode_number (filename : String) : Option Nat :=
  extractList patterns filename.data

/-- Substring containment, Python's `sub in s`. -/
def containsSub (s sub : String) : Bool :=
  s.data.tails.any fun t => pfx sub.data t

/-- `detect_source_format`: first-matching substring rule over the filename. -/
def detect_source_format (filename : String) : String :=
  if containsSub filename "[Erai-raws] Detective Conan -" && containsSub filename "[Multiple Subtitle]" then
    "erai-raws"
  else if containsSub filename "[RAW Reghost-Fabre]" then "reghost-fabre"
  else if containsSub filename "[Crunchyroll]" then "crunchyroll"
  else if containsSub filename "[Fabre-RAW] Detective Conan Remastered" then "fabre-remastered"
  else if containsSub filename "[Fabre-RAW] Detective Conan" then "fabre"
  else if containsSub filename "Bilibili" || containsSub filename "bilibili" then "bilibili"
  else "unknown"

/-- An episode policy dict: each field is `none` when the corresponding key is
absent from the Python dict. No branch of the source ever sets a `skip` key; a
user override dict may contain any of these keys. -/
structure EpConfig where
  rename_only : Option Bool := none
  output_format : Option String := none
  keep_existing_subs : Option Bool := none
  add_fan_subs : Option Bool := none
  add_bb_subs : Option Bool := none
  rename_existing_bb_track : Option Bool := none
  skip : Option Bool := none
deriving DecidableEq, Repr

/-- The configuration consumed by the decision logic: optional per-range policy
override dicts plus the dubbed-episode and backup options. -/
structure Config where
  episodes_1_123 : Option EpConfig
  episodes_124_723 : Option EpConfig
  episodes_724_753 : Option EpConfig
  episodes_754_1132 : Option EpConfig
  skip_dubbed_episodes : Bool
  dubbed_episodes : List Nat
  create_backups : Bool
deriving DecidableEq, Repr

/-- `get_default_config`: no range overrides, dubbed skipping off, backups off. -/
def defaultConfig : Config :=
  ⟨none, none, none, none, false, [], false⟩

/-- `get_episode_config`, with the configuration threaded as state: when a user
override dict is stored for range 724 to 753 and the source is bilibili, the
source mutates that stored dict in place, so the updated configuration is
returned alongside the policy. -/
def get_episode_config (cfg : Config) (ep_num : Nat) (source_format : String) :
    EpConfig × Config :=
  if source_format = "erai-raws" ∧ 1 ≤ ep_num ∧ ep_num ≤ 123 then
    ({ rename_only := some true, output_format := some "remastered",
       keep_existing_subs := some true, add_fan_subs := some false,
       add_bb_subs := some false }, cfg)
  else if 1 ≤ ep_num ∧ ep_num ≤ 123 then
    (cfg.episodes_1_123.getD
      { keep_existing_subs := some true, add_fan_subs := some true,
        add_bb_subs := some false }, cfg)
  else if 124 ≤ ep_num ∧ ep_num ≤ 723 then
    (cfg.episodes_124_723.getD
      { keep_existing_subs := some true, add_fan_subs := some true,
        add_bb_subs := some true }, cfg)
  else if 724 ≤ ep_num ∧ ep_num ≤ 753 then
    match cfg.episodes_724_753 with
    | some c =>
      if source_format = "bilibili" then
        let c2 := { c with rename_existing_bb_track := some false }
        (c2, { cfg with episodes_724_753 := some c2 })
      else (c, cfg)
    | none =>
      let c : EpConfig :=
        { keep_existing_subs := some true, add_fan_subs := some true,
          add_bb_subs := some false, rename_existing_bb_track := some true }
      if source_format = "bilibili" then
        ({ c with rename_existing_bb_track := some false }, cfg)
      else (c, cfg)
  else
    (cfg.episodes_754_1132.getD
      { keep_existing_subs := some true, add_fan_subs := some true,
        add_bb_subs := some false }, cfg)

/-- The resolved directory layout: one string per directory of the layout. -/
structure Directories where
  base_dir : String
  shows_dir : String
  fan_subs_dir : String
  bb_subs_dir : String
  temp_dir : String
deriving DecidableEq, Repr

/-- A concrete directory layout following the defaults of `setup_directories`. -/
def defaultDirs : Directories :=
  ⟨"base", "base/Shows", "base/fan subs 0001-0757",
   "base/[Fabre-RAW] Detective Conan Remastered [NetflixJP] [1080p]",
   "base/temp_processing"⟩

/-- `get_subtitle_path`: range-gated filename construction plus an on-disk
existence check, where `exists_fs` stands for `Path.exists`. -/
def get_subtitle_path (dirs : Directories) (exists_fs : FPath → Bool)
    (ep_num : Nat) (sub_type : String) : Option FPath :=
  if sub_type = "fan" then
    if 1 ≤ ep_num ∧ ep_num ≤ 757 then
      let p : FPath := ⟨dirs.fan_subs_dir, pad4 ep_num ++ ".ass"⟩
      if exists_fs p then some p else none
    else none
  else if sub_type = "bb" then
    if 124 ≤ ep_num ∧ ep_num ≤ 173 then
      let p : FPath := ⟨dirs.bb_subs_dir,
        "[Fabre-RAW] Detective Conan Remastered " ++ pad4 ep_num ++ " [NetflixJP] [1080p].srt"⟩
      if exists_fs p then some p else none
    else if 174 ≤ ep_num ∧ ep_num ≤ 723 then
      let p : FPath := ⟨dirs.bb_subs_dir,
        "[Fabre-RAW] Detective Conan " ++ pad4 ep_num ++ " [NetflixJP] [1080p].srt"⟩
      if exists_fs p then some p else none
    else none
  else none

/-- The canonical remastered output filename. -/
def remastered_name (ep_num : Nat) : String :=
  "Detective Conan Remastered " ++ pad4 ep_num ++ " [1080p].mkv"

/-- The canonical 480p output filename. -/
def name_480 (ep_num : Nat) : String :=
  "Detective Conan " ++ pad4 ep_num ++ " [480p].mkv"

/-- `get_output_filename`: an explicit `output_format` wins, otherwise the name
is derived from the source format. -/
def get_output_filename (ep_num : Nat) (source_format : String)
    (ep_config : EpConfig) : String :=
  if ep_config.output_format = some "remastered" then remastered_name ep_num
  else if ep_config.output_format = some "480p" then name_480 ep_num
  else if source_format = "reghost-fabre" then name_480 ep_num
  else if source_format = "erai-raws" then remastered_name ep_num
  else remastered_name ep_num

/-- The canonical Erai-raws release filename for an episode. -/
def erai_name (ep : Nat) : String :=
  "[Erai-raws] Detective Conan - " ++ pad4 ep ++ " [1080p][Multiple Subtitle].mkv"

/-- The canonical Reghost-Fabre release filename for an episode. -/
def reghost_name (ep : Nat) : String :=
  "[RAW Reghost-Fabre] Detective Conan " ++ pad4 ep ++ ".mkv"

/-- The canonical Crunchyroll release filename for an episode. -/
def crunchyroll_name (ep : Nat) : String :=
  "[Crunchyroll] Detective Conan - " ++ pad4 ep ++ " [Multi-Sub].mkv"

/-- The canonical Fabre-RAW Remastered release filename for an episode. -/
def fabre_remastered_name (ep : Nat) : String :=
  "[Fabre-RAW] Detective Conan Remastered " ++ pad4 ep ++ " [1080p].mkv"

/-- The canonical Fabre-RAW release filename for an episode. -/
def fabre_name (ep : Nat) : String :=
  "[Fabre-RAW] Detective Conan " ++ pad4 ep ++ " [1080p].mkv"

/-- The episode-file selection of `process_season`: keep only files whose name
yields a truthy episode number (Python `if ep_num:` also drops zero). -/
def season_video_files (names : List String) : List (String × Nat) :=
  names.filterMap fun n =>
    match extract_episode_number n with
    | some k => if k ≠ 0 then some (n, k) else none
    | none => none

/-- The subtitle label strings consumed from the configuration. -/
structure SubtitleLabels where
  fan_subs : String
  bb_subs : String
deriving DecidableEq, Repr

/-- The full path string of a file, directory joined with the name. -/
def pathStr (p : FPath) : String := p.dir ++ "/" ++ p.name

/-- The three command parts `mux_subtitles_advanced` accumulates, plus the
final assembled command line. -/
structure MuxParts where
  additional_inputs : List String
  output_maps : List String
  metadata : List String
  cmd : List String
deriving DecidableEq, Repr

/-- The command-construction part of `mux_subtitles_advanced`: stream maps for
the main input, optional passthrough of existing subtitles with an optional
relabel of stream 0, then the fan and bb inputs in that fixed order, each
receiving language and title metadata at the next free output subtitle index.
`exists_fs` stands for `Path.exists` on the subtitle inputs. -/
def mux_subtitles_advanced (ffmpeg : String) (labels : SubtitleLabels)
    (video_path : FPath) (fan_sub_path bb_sub_path : Option FPath)
    (output_path : FPath) (ep_config : EpConfig) (exists_fs : FPath → Bool) :
    MuxParts :=
  let keep_existing := ep_config.keep_existing_subs.getD true
  let rename_existing := ep_config.rename_existing_bb_track.getD false
  let output_maps0 : List String :=
    ["-map", "0:v", "-map", "0:a"] ++ (if keep_existing then ["-map", "0:s?"] else [])
  let metadata0 : List String :=
    if keep_existing && rename_existing then
      ["-metadata:s:s:0", "language=eng", "-metadata:s:s:0", "title=" ++ labels.bb_subs]
    else []
  let input_count0 : Nat := 1
  let subtitle_index0 : Nat := if keep_existing then 1 else 0
  let fan_ok : Bool := match fan_sub_path with
    | some p => exists_fs p && ep_config.add_fan_subs.getD true
    | none => false
  let bb_ok : Bool := match bb_sub_path with
    | some p => exists_fs p && ep_config.add_bb_subs.getD true
    | none => false
  let additional_inputs1 : List String :=
    if fan_ok then
      match fan_sub_path with
      | some p => ["-i", pathStr p]
      | none => []
    else []
  let output_maps1 :=
    if fan_ok then output_maps0 ++ ["-map", toString input_count0 ++ ":s"] else output_maps0
  let metadata1 :=
    if fan_ok then
      metadata0 ++ ["-metadata:s:s:" ++ toString subtitle_index0, "language=eng",
                    "-metadata:s:s:" ++ toString subtitle_index0, "title=" ++ labels.fan_subs]
    else metadata0
  let input_count1 := if fan_ok then input_count0 + 1 else input_count0
  let subtitle_index1 := if fan_ok then subtitle_index0 + 1 else subtitle_index0
  let additional_inputs2 :=
    if bb_ok then
      additional_inputs1 ++
        (match bb_sub_path with
         | some p => ["-i", pathStr p]
         | none => [])
    else additional_inputs1
  let output_maps2 :=
    if bb_ok then output_maps1 ++ ["-map", toString input_count1 ++ ":s"] else output_maps1
  let metadata2 :=
    if bb_ok then
      metadata1 ++ ["-metadata:s:s:" ++ toString subtitle_index1, "language=eng",
                    "-metadata:s:s:" ++ toString subtitle_index1, "title=" ++ labels.bb_subs]
    else metadata1
  { additional_inputs := additional_inputs2
    output_maps := output_maps2
    metadata := metadata2
    cmd := [ffmpeg, "-i", pathStr video_path] ++ additional_inputs2 ++ output_maps2 ++
      metadata2 ++ ["-c:v", "copy", "-c:a", "copy", "-c:s", "copy", "-y"] ++
      [pathStr output_path] }

/-- The filesystem, as contents (abstract numeric ids) at paths. -/
def FS : Type := FPath → Option Nat

/-- Create or overwrite the file at `p`. -/
def fsWrite (fs : FS) (p : FPath) (v : Nat) : FS :=
  fun q => if q = p then some v else fs q

/-- Delete the file at `p`. -/
def fsRemove (fs : FS) (p : FPath) : FS :=
  fun q => if q = p then none else fs q

/-- Existence test, `Path.exists`. -/
def fsExists (fs : FS) (p : FPath) : Bool := (fs p).isSome

/-- `Path.rename` and `shutil.move`: the destination receives the source's
content and the source disappears. -/
def fsMove (fs : FS) (src dst : FPath) : FS :=
  match fs src with
  | some v => fsWrite (fsRemove fs src) dst v
  | none => fs

/-- The backup copy's path: the backups directory under the base directory,
keeping the original file name. -/
def backup_path (dirs : Directories) (video_path : FPath) : FPath :=
  ⟨dirs.base_dir ++ "/backups", video_path.name⟩

/-- `create_backup`: when enabled, copy the original into the backups directory;
the original is never touched. -/
def create_backup (cfg : Config) (dirs : Directories) (fs : FS)
    (video_path : FPath) : FS :=
  if cfg.create_backups then
    match fs video_path with
    | some v => fsWrite fs (backup_path dirs video_path) v
    | none => fs
  else fs

/-- `sync_subtitle` always leaves a file at `output_path`: the externally synced
result when the synchronizer succeeds (`synced = some v`), otherwise a verbatim
copy of the input subtitle. -/
def sync_subtitle (fs : FS) (subtitle_path output_path : FPath)
    (synced : Option Nat) : FS :=
  match synced with
  | some v => fsWrite fs output_path v
  | none =>
    match fs subtitle_path with
    | some v => fsWrite fs output_path v
    | none => fs

/-- The external collaborators of one episode: what the synchronizer produces
for each subtitle kind, whether the muxer exits with code zero (false also
covers timeout and exception), and what content, if any, the muxer leaves at
the temporary output path it was given. -/
structure Oracles where
  fan_synced : Option Nat
  bb_synced : Option Nat
  mux_returncode_zero : Bool
  mux_written : Option Nat
deriving DecidableEq, Repr

/-- The outcome of `process_episode`: the reported success flag, the filesystem
afterwards, and the (possibly mutated) configuration. -/
structure EpisodeResult where
  ok : Bool
  fs : FS
  cfg : Config

/-- The source format of the episode's file, from its name. -/
def episode_source (video_path : FPath) : String :=
  detect_source_format video_path.name

/-- The policy `process_episode` resolves for the file. -/
def episode_policy (cfg : Config) (video_path : FPath) (ep_num : Nat) : EpConfig :=
  (get_episode_config cfg ep_num (episode_source video_path)).1

/-- The canonical output path: the output filename next to the original file. -/
def episode_output_path (cfg : Config) (video_path : FPath) (ep_num : Nat) : FPath :=
  ⟨video_path.dir,
   get_output_filename ep_num (episode_source video_path) (episode_policy cfg video_path ep_num)⟩

/-- The temp-directory target of the fan subtitle synchronization. -/
def fan_synced_path (dirs : Directories) (ep_num : Nat) : FPath :=
  ⟨dirs.temp_dir, pad4 ep_num ++ "_fan_synced.ass"⟩

/-- The temp-directory target of the bb subtitle synchronization. -/
def bb_synced_path (dirs : Directories) (ep_num : Nat) : FPath :=
  ⟨dirs.temp_dir, pad4 ep_num ++ "_bb_synced.srt"⟩

/-- The temporary container the muxer writes into. -/
def temp_output_path (dirs : Directories) (ep_num : Nat) : FPath :=
  ⟨dirs.temp_dir, "temp_" ++ pad4 ep_num ++ ".mkv"⟩

/-- The fan subtitle `process_episode` locates, when the policy asks for one:
the locator runs against the filesystem as left by the backup step. -/
def fan_original (cfg : Config) (dirs : Directories) (fs0 : FS)
    (video_path : FPath) (ep_num : Nat) : Option FPath :=
  if (episode_policy cfg video_path ep_num).add_fan_subs.getD true then
    get_subtitle_path dirs (fsExists (create_backup cfg dirs fs0 video_path)) ep_num "fan"
  else none

/-- The bb subtitle `process_episode` locates, when the policy asks for one. -/
def bb_original (cfg : Config) (dirs : Directories) (fs0 : FS)
    (video_path : FPath) (ep_num : Nat) : Option FPath :=
  if (episode_policy cfg video_path ep_num).add_bb_subs.getD true then
    get_subtitle_path dirs (fsExists (create_backup cfg dirs fs0 video_path)) ep_num "bb"
  else none

/-- One optional synchronization: when a subtitle was located, `sync_subtitle`
runs and leaves its result at `target`; otherwise nothing happens. -/
def sync_step (fs : FS) (orig : Option FPath) (target : FPath)
    (synced : Option Nat) : FS :=
  match orig with
  | some sp => sync_subtitle fs sp target synced
  | none => fs

/-- What the muxer invocation does to the filesystem: it writes (at most) the
temporary output path it was handed. -/
def mux_write_step (fs : FS) (target : FPath) (written : Option Nat) : FS :=
  match written with
  | some v => fsWrite fs target v
  | none => fs

/-- `process_episode`: backup, classify, resolve the policy, derive the output
name, then either rename (dubbed-skip, rename-only, or no-new-subtitles cases)
or sync the located subtitles into the temp directory, mux into a temporary
container, and only on a successful mux delete the original and move the
temporary container onto the canonical output path. -/
def process_episode (cfg : Config) (dirs : Directories) (o : Oracles)
    (fs0 : FS) (video_path : FPath) (ep_num : Nat) : EpisodeResult :=
  let fs := create_backup cfg dirs fs0 video_path
  let ep_config := episode_policy cfg video_path ep_num
  let cfg2 := (get_episode_config cfg ep_num (episode_source video_path)).2
  let output_name := get_output_filename ep_num (episode_source video_path) ep_config
  let output_path : FPath := ⟨video_path.dir, output_name⟩
  if cfg2.skip_dubbed_episodes && cfg2.dubbed_episodes.contains ep_num then
    if video_path.name = output_name then ⟨true, fs, cfg2⟩
    else ⟨true, fsMove fs video_path output_path, cfg2⟩
  else if ep_config.rename_only.getD false then
    if video_path.name = output_name then ⟨true, fs, cfg2⟩
    else ⟨true, fsMove fs video_path output_path, cfg2⟩
  else
    let fan_sub_original := fan_original cfg dirs fs0 video_path ep_num
    let bb_sub_original := bb_original cfg dirs fs0 video_path ep_num
    if fan_sub_original = none ∧ bb_sub_original = none then
      if ep_config.keep_existing_subs.getD true then
        if video_path.name = output_name then ⟨true, fs, cfg2⟩
        else ⟨true, fsMove fs video_path output_path, cfg2⟩
      else ⟨false, fs, cfg2⟩
    else
      let fan_sub_synced : Option FPath :=
        fan_sub_original.map fun _ => fan_synced_path dirs ep_num
      let bb_sub_synced : Option FPath :=
        bb_sub_original.map fun _ => bb_synced_path dirs ep_num
      let fs := sync_step fs fan_sub_original (fan_synced_path dirs ep_num) o.fan_synced
      let fs := sync_step fs bb_sub_original (bb_synced_path dirs ep_num) o.bb_synced
      let fs := mux_write_step fs (temp_output_path dirs ep_num) o.mux_written
      if o.mux_returncode_zero && fsExists fs (temp_output_path dirs ep_num) then
        let fs := if fsExists fs video_path then fsRemove fs video_path else fs
        let fs := fsMove fs (temp_output_path dirs ep_num) output_path
        let fs := match fan_sub_synced with
          | some p => if fsExists fs p then fsRemove fs p else fs
          | none => fs
        let fs := match bb_sub_synced with
          | some p => if fsExists fs p then fsRemove fs p else fs
          | none => fs
        ⟨true, fs, cfg2⟩
      else ⟨false, fs, cfg2⟩

/-- No character of the list is a decimal digit. -/
def noDigit (l : List Char) : Bool := l.all fun c => !c.isDigit

/-- After a hit of `pre` inside `t`, the very next character (still inside `t`)
is not a digit, so a digit group cannot start there. -/
def nonDigitNext (pre t : List Char) : Bool :=
  match t.drop pre.length with
  | c :: _ => !c.isDigit
  | [] => false

/-- Every position of `A` either does not start with `pre` or is followed by a
non-digit character inside `A` itself. -/
def failsIn (pre A : List Char) : Bool :=
  A.tails.all fun t => !pfx pre t || nonDigitNext pre t

theorem data_append (a b : String) : (a ++ b).data = a.data ++ b.data := rfl

theorem pad4_data (n : Nat) (h : n < 10000) : (pad4 n).data = fourDigits n := by
  simp [pad4, if_pos h]

theorem take_append_len (l r : List Char) : (l ++ r).take l.length = l := by
  induction l with
  | nil => rfl
  | cons a t ih => simp [List.take_succ_cons, ih]

theorem drop_append_len (l r : List Char) : (l ++ r).drop l.length = r := by
  induction l with
  | nil => rfl
  | cons a t ih => simp [ih]

theorem drop_append_le (n : Nat) (l r : List Char) (h : n ≤ l.length) :
    (l ++ r).drop n = l.drop n ++ r := by
  induction l generalizing n with
  | nil =>
    have : n = 0 := by simpa using h
    simp [this]
  | cons a t ih =>
    cases n with
    | zero => rfl
    | succ m =>
      simp only [List.cons_append, List.drop_succ_cons]
      exact ih m (by simpa using h)

theorem pfx_append_self (l r : List Char) : pfx l (l ++ r) = true := by
  induction l with
  | nil => rfl
  | cons a t ih => simp [pfx, ih]

theorem pfx_of_ge (p t r : List Char) (h : p.length ≤ t.length) :
    pfx p (t ++ r) = pfx p t := by
  induction p generalizing t with
  | nil => rfl
  | cons a p' ih =>
    cases t with
    | nil => simp at h
    | cons b t' =>
      have h' : p'.length ≤ t'.length := by simpa using h
      show (a == b && pfx p' (t' ++ r)) = (a == b && pfx p' t')
      rw [ih t' h']

theorem pfx_drop (p t r : List Char) (h : t.length ≤ p.length)
    (hp : pfx p (t ++ r) = true) : pfx (p.drop t.length) r = true := by
  induction t generalizing p with
  | nil => simpa using hp
  | cons a t' ih =>
    cases p with
    | nil => simp at h
    | cons c p' =>
      simp only [List.cons_append, pfx, Bool.and_eq_true] at hp
      simpa using ih p' (by simpa using h) hp.2

theorem pfx_head_eq {c d : Char} {p s : List Char}
    (h : pfx (c :: p) (d :: s) = true) : c = d := by
  simp only [pfx, Bool.and_eq_true, beq_iff_eq] at h
  exact h.1

theorem noDigit_mem {l : List Char} {c : Char} (h : noDigit l = true)
    (hc : c ∈ l) : c.isDigit = false := by
  simp only [noDigit, List.all_eq_true] at h
  simpa using h c hc

theorem dCh_isDigit (d : Nat) (h : d < 10) : (dCh d).isDigit = true := by
  interval_cases d <;> decide

theorem dCh_toNat (d : Nat) (h : d < 10) : (dCh d).toNat = 48 + d := by
  interval_cases d <;> decide

theorem fourDigits_all (n : Nat) : (fourDigits n).all Char.isDigit = true := by
  have h : ∀ m : Nat, (dCh (m % 10)).isDigit = true :=
    fun m => dCh_isDigit _ (Nat.mod_lt _ (by omega))
  simp [fourDigits, h]

theorem fourDigits_length (n : Nat) : (fourDigits n).length = 4 := rfl

theorem fourDigits_ne_nil (n : Nat) : fourDigits n ≠ [] := by simp [fourDigits]

theorem digitsToNat_fourDigits (n : Nat) (h : n < 10000) :
    digitsToNat (fourDigits n) = n := by
  simp only [digitsToNat, fourDigits, List.foldl]
  rw [dCh_toNat _ (by omega), dCh_toNat _ (by omega), dCh_toNat _ (by omega),
    dCh_toNat _ (by omega)]
  omega

theorem tryLens_head_nonDigit {c : Char} (rest suf : List Char) (dmin : Nat)
    (hc : c.isDigit = false) (_hd : 1 ≤ dmin) :
    ∀ len, tryLens (c :: rest) suf dmin len = none := by
  intro len
  induction len with
  | zero => rfl
  | succ l ih =>
    unfold tryLens
    by_cases h1 : l + 1 < dmin
    · rw [if_pos h1]
    · rw [if_neg h1, if_neg, ih]
      simp [List.take_succ_cons, hc]

theorem searchFrom_match_some {s : List Char} {p : Pat} {v : Nat}
    (h : matchAt s p = some v) : searchFrom s p = some v := by
  cases s with
  | nil => rw [searchFrom, h]
  | cons a t => rw [searchFrom, h]

theorem searchFrom_cons_none {a : Char} {t : List Char} {p : Pat}
    (h : matchAt (a :: t) p = none) : searchFrom (a :: t) p = searchFrom t p := by
  rw [searchFrom, h]

theorem searchFrom_digits_none (p : Pat) (hpre : p.pre ≠ [])
    (hnd : noDigit p.pre = true) :
    ∀ D : List Char, D.all Char.isDigit = true → ∀ B : List Char,
    searchFrom B p = none → searchFrom (D ++ B) p = none := by
  intro D
  induction D with
  | nil => intro _ B hB; simpa using hB
  | cons d D' ih =>
    intro hD B hB
    simp only [List.all_cons, Bool.and_eq_true] at hD
    have hm : matchAt ((d :: D') ++ B) p = none := by
      unfold matchAt
      cases hpp : p.pre with
      | nil => exact absurd hpp hpre
      | cons c pre' =>
        have hcne : (c == d) = false := by
          have hcd : c.isDigit = false := noDigit_mem hnd (by rw [hpp]; exact List.mem_cons_self c pre')
          by_cases hcdq : c = d
          · rw [hcdq] at hcd; rw [hcd] at hD; exact absurd hD.1 (by simp)
          · simpa using hcdq
        simp [pfx, hcne]
    rw [List.cons_append, searchFrom_cons_none (by simpa using hm)]
    exact ih hD.2 B hB

theorem searchFrom_skip (p : Pat) (hpre : p.pre ≠ [])
    (hnd : noDigit p.pre = true) (hdmin : 1 ≤ p.dmin) :
    ∀ A : List Char, failsIn p.pre A = true →
    ∀ D : List Char, D.all Char.isDigit = true → D ≠ [] →
    ∀ B : List Char, searchFrom B p = none →
    searchFrom (A ++ (D ++ B)) p = none := by
  intro A
  induction A with
  | nil =>
    intro _ D hD _ B hB
    simpa using searchFrom_digits_none p hpre hnd D hD B hB
  | cons a A' ih =>
    intro hA D hD hDne B hB
    have hA' : failsIn p.pre (a :: A') = true := hA
    simp only [failsIn, List.tails_cons, List.all_cons, Bool.and_eq_true] at hA'
    have hhead := hA'.1
    have htail : failsIn p.pre A' = true := by
      simp only [failsIn]; exact hA'.2
    have hm : matchAt ((a :: A') ++ (D ++ B)) p = none := by
      by_cases hlen : p.pre.length ≤ (a :: A').length
      · have heq : pfx p.pre ((a :: A') ++ (D ++ B)) = pfx p.pre (a :: A') :=
          pfx_of_ge _ _ _ hlen
        cases hp : pfx p.pre (a :: A') with
        | false => unfold matchAt; rw [heq, hp]; rfl
        | true =>
          have hnext : nonDigitNext p.pre (a :: A') = true := by
            rw [hp] at hhead; simpa using hhead
          unfold matchAt
          rw [heq, hp, if_pos rfl]
          rw [drop_append_le _ _ _ hlen]
          unfold nonDigitNext at hnext
          cases hdrop : (a :: A').drop p.pre.length with
          | nil => rw [hdrop] at hnext; simp at hnext
          | cons c r =>
            rw [hdrop] at hnext
            simp only [Bool.not_eq_true'] at hnext
            exact tryLens_head_nonDigit _ _ _ hnext hdmin _
      · push_neg at hlen
        cases hp : pfx p.pre ((a :: A') ++ (D ++ B)) with
        | false => unfold matchAt; rw [hp]; rfl
        | true =>
          exfalso
          have hdp : pfx (p.pre.drop (a :: A').length) (D ++ B) = true :=
            pfx_drop _ _ _ (le_of_lt hlen) hp
          cases hdrop : p.pre.drop (a :: A').length with
          | nil =>
            have hlen' : A'.length + 1 < p.pre.length := by simpa using hlen
            have hz : p.pre.length - (A'.length + 1) = 0 := by
              simpa using congrArg List.length hdrop
            omega
          | cons c p'' =>
            cases D with
            | nil => exact absurd rfl hDne
            | cons d D'' =>
              rw [hdrop] at hdp
              have hcd : c = d := pfx_head_eq (by simpa using hdp)
              have hcmem : c ∈ p.pre := by
                have : c ∈ p.pre.drop (a :: A').length := by
                  rw [hdrop]; exact List.mem_cons_self c p''
                exact List.drop_subset _ _ this
              have h1 : c.isDigit = false := noDigit_mem hnd hcmem
              have h2 : d.isDigit = true := by
                simp only [List.all_cons, Bool.and_eq_true] at hD
                exact hD.1
              rw [hcd, h2] at h1
              exact absurd h1 (by simp)
    rw [List.cons_append, searchFrom_cons_none (by simpa using hm)]
    exact ih htail D hD hDne B hB

theorem searchFrom_found (p : Pat) (D B : List Char) (hmax : p.dmax = 4)
    (hmin : p.dmin ≤ 4) (hD : D.all Char.isDigit = true) (hlen : D.length = 4)
    (hsuf : pfx p.suf B = true) :
    searchFrom (p.pre ++ (D ++ B)) p = some (digitsToNat D) := by
  apply searchFrom_match_some
  unfold matchAt
  rw [pfx_append_self, if_pos rfl, drop_append_len, hmax]
  show tryLens (D ++ B) p.suf p.dmin (3 + 1) = some (digitsToNat D)
  unfold tryLens
  have hcond : ¬(3 + 1 < p.dmin) := by omega
  rw [if_neg hcond, if_pos]
  · congr 1
    rw [show (3 + 1 : Nat) = D.length from hlen.symm, take_append_len]
  · rw [show (3 + 1 : Nat) = D.length from hlen.symm, take_append_len, drop_append_len]
    simp [hD, hlen, hsuf]

theorem extract_erai (ep : Nat) (h : ep < 10000) :
    extract_episode_number (erai_name ep) = some ep := by
  have hdata : (erai_name ep).data =
      "[Erai-raws] Detective Conan - ".data ++
        (fourDigits ep ++ " [1080p][Multiple Subtitle].mkv".data) := by
    simp only [erai_name, data_append, pad4_data ep h, List.append_assoc]
  have h1 : searchFrom (erai_name ep).data pat1 = some (digitsToNat (fourDigits ep)) := by
    rw [hdata]
    exact searchFrom_found pat1 _ _ rfl (by decide) (fourDigits_all ep)
      (fourDigits_length ep) (by decide)
  simp only [extract_episode_number, patterns, extractList, h1,
    digitsToNat_fourDigits ep h]

theorem extract_reghost (ep : Nat) (h : ep < 10000) :
    extract_episode_number (reghost_name ep) = some ep := by
  have hdata : (reghost_name ep).data =
      "[RAW Reghost-Fabre] Detective Conan ".data ++ (fourDigits ep ++ ".mkv".data) := by
    simp only [reghost_name, data_append, pad4_data ep h, List.append_assoc]
  have h1 : searchFrom (reghost_name ep).data pat1 = none := by
    rw [hdata]
    exact searchFrom_skip pat1 (by decide) (by decide) (by decide) _ (by decide) _
      (fourDigits_all ep) (fourDigits_ne_nil ep) _ (by decide)
  have h2 : searchFrom (reghost_name ep).data pat2 = some (digitsToNat (fourDigits ep)) := by
    rw [hdata]
    exact searchFrom_found pat2 _ _ rfl (by decide) (fourDigits_all ep)
      (fourDigits_length ep) (by decide)
  simp only [extract_episode_number, patterns, extractList, h1, h2,
    digitsToNat_fourDigits ep h]

theorem extract_crunchyroll (ep : Nat) (h : ep < 10000) :
    extract_episode_number (crunchyroll_name ep) = some ep := by
  have hdata : (crunchyroll_name ep).data =
      "[Crunchyroll] Detective Conan - ".data ++ (fourDigits ep ++ " [Multi-Sub].mkv".data) := by
    simp only [crunchyroll_name, data_append, pad4_data ep h, List.append_assoc]
  have h1 : searchFrom (crunchyroll_name ep).data pat1 = none := by
    rw [hdata]
    exact searchFrom_skip pat1 (by decide) (by decide) (by decide) _ (by decide) _
      (fourDigits_all ep) (fourDigits_ne_nil ep) _ (by decide)
  have h2 : searchFrom (crunchyroll_name ep).data pat2 = none := by
    rw [hdata]
    exact searchFrom_skip pat2 (by decide) (by decide) (by decide) _ (by decide) _
      (fourDigits_all ep) (fourDigits_ne_nil ep) _ (by decide)
  have h3 : searchFrom (crunchyroll_name ep).data pat3 = some (digitsToNat (fourDigits ep)) := by
    rw [hdata]
    exact searchFrom_found pat3 _ _ rfl (by decide) (fourDigits_all ep)
      (fourDigits_length ep) (by decide)
  simp only [extract_episode_number, patterns, extractList, h1, h2, h3,
    digitsToNat_fourDigits ep h]

theorem extract_fabre_remastered (ep : Nat) (h : ep < 10000) :
    extract_episode_number (fabre_remastered_name ep) = some ep := by
  have hdata : (fabre_remastered_name ep).data =
      "[Fabre-RAW] Detective Conan Remastered ".data ++ (fourDigits ep ++ " [1080p].mkv".data) := by
    simp only [fabre_remastered_name, data_append, pad4_data ep h, List.append_assoc]
  have h1 : searchFrom (fabre_remastered_name ep).data pat1 = none := by
    rw [hdata]
    exact searchFrom_skip pat1 (by decide) (by decide) (by decide) _ (by decide) _
      (fourDigits_all ep) (fourDigits_ne_nil ep) _ (by decide)
  have h2 : searchFrom (fabre_remastered_name ep).data pat2 = none := by
    rw [hdata]
    exact searchFrom_skip pat2 (by decide) (by decide) (by decide) _ (by decide) _
      (fourDigits_all ep) (fourDigits_ne_nil ep) _ (by decide)
  have h3 : searchFrom (fabre_remastered_name ep).data pat3 = none := by
    rw [hdata]
    exact searchFrom_skip pat3 (by decide) (by decide) (by decide) _ (by decide) _
      (fourDigits_all ep) (fourDigits_ne_nil ep) _ (by decide)
  have h4 : searchFrom (fabre_remastered_name ep).data pat4 = some (digitsToNat (fourDigits ep)) := by
    rw [hdata]
    exact searchFrom_found pat4 _ _ rfl (by decide) (fourDigits_all ep)
      (fourDigits_length ep) (by decide)
  simp only [extract_episode_number, patterns, extractList, h1, h2, h3, h4,
    digitsToNat_fourDigits ep h]

theorem extract_fabre (ep : Nat) (h : ep < 10000) :
    extract_episode_number (fabre_name ep) = some ep := by
  have hdata : (fabre_name ep).data =
      "[Fabre-RAW] Detective Conan ".data ++ (fourDigits ep ++ " [1080p].mkv".data) := by
    simp only [fabre_name, data_append, pad4_data ep h, List.append_assoc]
  have h1 : searchFrom (fabre_name ep).data pat1 = none := by
    rw [hdata]
    exact searchFrom_skip pat1 (by decide) (by decide) (by decide) _ (by decide) _
      (fourDigits_all ep) (fourDigits_ne_nil ep) _ (by decide)
  have h2 : searchFrom (fabre_name ep).data pat2 = none := by
    rw [hdata]
    exact searchFrom_skip pat2 (by decide) (by decide) (by decide) _ (by decide) _
      (fourDigits_all ep) (fourDigits_ne_nil ep) _ (by decide)
  have h3 : searchFrom (fabre_name ep).data pat3 = none := by
    rw [hdata]
    exact searchFrom_skip pat3 (by decide) (by decide) (by decide) _ (by decide) _
      (fourDigits_all ep) (fourDigits_ne_nil ep) _ (by decide)
  have h4 : searchFrom (fabre_name ep).data pat4 = none := by
    rw [hdata]
    exact searchFrom_skip pat4 (by decide) (by decide) (by decide) _ (by decide) _
      (fourDigits_all ep) (fourDigits_ne_nil ep) _ (by decide)
  have h5 : searchFrom (fabre_name ep).data pat5 = some (digitsToNat (fourDigits ep)) := by
    rw [hdata]
    exact searchFrom_found pat5 _ _ rfl (by decide) (fourDigits_all ep)
      (fourDigits_length ep) (by decide)
  simp only [extract_episode_number, patterns, extractList, h1, h2, h3, h4, h5,
    digitsToNat_fourDigits ep h]

theorem extract_remastered_output (ep : Nat) (h : ep < 10000) :
    extract_episode_number (remastered_name ep) = none := by
  have hdata : (remastered_name ep).data =
      "Detective Conan Remastered ".data ++ (fourDigits ep ++ " [1080p].mkv".data) := by
    simp only [remastered_name, data_append, pad4_data ep h, List.append_assoc]
  have hall : ∀ p ∈ patterns, searchFrom (remastered_name ep).data p = none := by
    intro p hp
    rw [hdata]
    fin_cases hp <;>
      exact searchFrom_skip _ (by decide) (by decide) (by decide) _ (by decide) _
        (fourDigits_all ep) (fourDigits_ne_nil ep) _ (by decide)
  have g1 := hall pat1 (by simp [patterns])
  have g2 := hall pat2 (by simp [patterns])
  have g3 := hall pat3 (by simp [patterns])
  have g4 := hall pat4 (by simp [patterns])
  have g5 := hall pat5 (by simp [patterns])
  have g6 := hall pat6 (by simp [patterns])
  have g7 := hall pat7 (by simp [patterns])
  simp only [extract_episode_number, patterns, extractList, g1, g2, g3, g4, g5, g6, g7]

theorem extract_480_output (ep : Nat) (h : ep < 10000) :
    extract_episode_number (name_480 ep) = some ep := by
  have hdata : (name_480 ep).data =
      "Detective Conan ".data ++ (fourDigits ep ++ " [480p].mkv".data) := by
    simp only [name_480, data_append, pad4_data ep h, List.append_assoc]
  have hskip : ∀ p, p = pat1 ∨ p = pat2 ∨ p = pat3 ∨ p = pat4 ∨ p = pat5 ∨ p = pat6 →
      searchFrom (name_480 ep).data p = none := by
    intro p hp
    rw [hdata]
    rcases hp with h' | h' | h' | h' | h' | h' <;> subst h' <;>
      exact searchFrom_skip _ (by decide) (by decide) (by decide) _ (by decide) _
        (fourDigits_all ep) (fourDigits_ne_nil ep) _ (by decide)
  have h7 : searchFrom (name_480 ep).data pat7 = some (digitsToNat (fourDigits ep)) := by
    rw [hdata]
    exact searchFrom_found pat7 _ _ rfl (by decide) (fourDigits_all ep)
      (fourDigits_length ep) (by decide)
  simp only [extract_episode_number, patterns, extractList,
    hskip pat1 (by tauto), hskip pat2 (by tauto), hskip pat3 (by tauto),
    hskip pat4 (by tauto), hskip pat5 (by tauto), hskip pat6 (by tauto), h7,
    digitsToNat_fourDigits ep h]

/-- C9: episode extraction round-trips. For every episode number in 1 to 1132
and each of the five known source families, formatting the number into the
family's canonical release filename and applying `extract_episode_number`
returns the original number. -/
theorem claim_c9_roundtrip (ep : Nat) (h1 : 1 ≤ ep) (h2 : ep ≤ 1132) :
    extract_episode_number (erai_name ep) = some ep ∧
    extract_episode_number (reghost_name ep) = some ep ∧
    extract_episode_number (crunchyroll_name ep) = some ep ∧
    extract_episode_number (fabre_remastered_name ep) = some ep ∧
    extract_episode_number (fabre_name ep) = some ep :=
  ⟨extract_erai ep (by omega), extract_reghost ep (by omega),
   extract_crunchyroll ep (by omega), extract_fabre_remastered ep (by omega),
   extract_fabre ep (by omega)⟩

theorem claim_c9_roundtrip_witness :
    (1 ≤ 200 ∧ 200 ≤ 1132) ∧
    (extract_episode_number (erai_name 200) = some 200 ∧
     extract_episode_number (reghost_name 200) = some 200 ∧
     extract_episode_number (crunchyroll_name 200) = some 200 ∧
     extract_episode_number (fabre_remastered_name 200) = some 200 ∧
     extract_episode_number (fabre_name 200) = some 200) :=
  ⟨by omega, claim_c9_roundtrip 200 (by omega) (by omega)⟩

/-- C10: the pipeline's own remastered output name is not re-parsable — no
extraction pattern matches it — while the 480p output name extracts back to the
episode number; hence on a subsequent run `process_season` keeps the 480p file
in its work list and drops the remastered one. -/
theorem claim_c10_output_reparse (ep : Nat) (h1 : 1 ≤ ep) (h2 : ep ≤ 1132) :
    extract_episode_number (remastered_name ep) = none ∧
    extract_episode_number (name_480 ep) = some ep ∧
    season_video_files [remastered_name ep] = [] ∧
    season_video_files [name_480 ep] = [(name_480 ep, ep)] := by
  have ha : extract_episode_number (remastered_name ep) = none :=
    extract_remastered_output ep (by omega)
  have hb : extract_episode_number (name_480 ep) = some ep :=
    extract_480_output ep (by omega)
  refine ⟨ha, hb, ?_, ?_⟩
  · simp [season_video_files, ha]
  · have hne : ep ≠ 0 := by omega
    simp [season_video_files, hb, hne]

theorem claim_c10_output_reparse_witness :
    (1 ≤ 730 ∧ 730 ≤ 1132) ∧
    (extract_episode_number (remastered_name 730) = none ∧
     extract_episode_number (name_480 730) = some 730 ∧
     season_video_files [remastered_name 730] = [] ∧
     season_video_files [name_480 730] = [(name_480 730, 730)]) :=
  ⟨by omega, claim_c10_output_reparse 730 (by omega) (by omega)⟩

/-- C1 counterexample: with the default configuration, resolving episode 730
with source bilibili yields a policy whose skip field is absent, not true; no
branch of `get_episode_config` ever produces a skip key. -/
theorem claim_c1_counterexample :
    (get_episode_config defaultConfig 730 "bilibili").1.skip ≠ some true := by decide

/-- C1 amended: with no user range overrides, resolving any episode with source
bilibili never yields a skip key; bilibili is not special-cased into a skip,
and its only effect is that for episodes 724 to 753 the resolved policy carries
rename_existing_bb_track = false. -/
theorem claim_c1_bilibili_no_skip (cfg : Config) (ep : Nat)
    (h1 : cfg.episodes_1_123 = none) (h2 : cfg.episodes_124_723 = none)
    (h3 : cfg.episodes_724_753 = none) (h4 : cfg.episodes_754_1132 = none) :
    (get_episode_config cfg ep "bilibili").1.skip = none ∧
    (724 ≤ ep → ep ≤ 753 →
      (get_episode_config cfg ep "bilibili").1.rename_existing_bb_track = some false) := by
  have hne : ¬("bilibili" = "erai-raws" ∧ 1 ≤ ep ∧ ep ≤ 123) := by
    rintro ⟨hc, -⟩
    exact absurd hc (by decide)
  simp only [get_episode_config, h1, h2, h3, h4, Option.getD_none]
  rw [if_neg hne]
  constructor
  · split_ifs <;> rfl
  · intro hlo hhi
    rw [if_neg (by omega), if_neg (by omega), if_pos ⟨hlo, hhi⟩]
    simp

theorem claim_c1_bilibili_no_skip_witness :
    (defaultConfig.episodes_1_123 = none ∧ defaultConfig.episodes_124_723 = none ∧
     defaultConfig.episodes_724_753 = none ∧ defaultConfig.episodes_754_1132 = none) ∧
    ((get_episode_config defaultConfig 730 "bilibili").1.skip = none ∧
     (724 ≤ 730 → 730 ≤ 753 →
       (get_episode_config defaultConfig 730 "bilibili").1.rename_existing_bb_track = some false)) :=
  ⟨⟨rfl, rfl, rfl, rfl⟩, claim_c1_bilibili_no_skip defaultConfig 730 rfl rfl rfl rfl⟩

/-- C2 counterexample: with the default configuration, resolving episode 200
with source crunchyroll keeps existing subtitles, contradicting the claimed
keep_existing_subs = false. -/
theorem claim_c2_counterexample :
    (get_episode_config defaultConfig 200 "crunchyroll").1.keep_existing_subs = some true ∧
    (get_episode_config defaultConfig 200 "crunchyroll").1.keep_existing_subs ≠ some false := by
  decide

/-- C2 amended: for every episode in 124 to 723 (not 753) and every non-bilibili
non-erai source with no user override, the resolved policy keeps existing
subtitles (not drops them) and adds both fan and bb subtitles. -/
theorem claim_c2_range_policy (cfg : Config) (ep : Nat) (src : String)
    (hov : cfg.episodes_124_723 = none) (h1 : 124 ≤ ep) (h2 : ep ≤ 723)
    (_hs1 : src ≠ "bilibili") (_hs2 : src ≠ "erai-raws") :
    (get_episode_config cfg ep src).1 =
      { keep_existing_subs := some true, add_fan_subs := some true,
        add_bb_subs := some true } ∧
    (get_episode_config cfg ep src).2 = cfg := by
  simp only [get_episode_config, hov, Option.getD_none]
  rw [if_neg (by rintro ⟨-, -, hle⟩; omega), if_neg (by omega), if_pos ⟨h1, h2⟩]
  exact ⟨rfl, rfl⟩

theorem claim_c2_range_policy_witness :
    (defaultConfig.episodes_124_723 = none ∧ 124 ≤ 200 ∧ 200 ≤ 723 ∧
     "crunchyroll" ≠ "bilibili" ∧ "crunchyroll" ≠ "erai-raws") ∧
    ((get_episode_config defaultConfig 200 "crunchyroll").1 =
      { keep_existing_subs := some true, add_fan_subs := some true,
        add_bb_subs := some true } ∧
     (get_episode_config defaultConfig 200 "crunchyroll").2 = defaultConfig) :=
  ⟨⟨rfl, by omega, by omega, by decide, by decide⟩,
   claim_c2_range_policy defaultConfig 200 "crunchyroll" rfl (by omega) (by omega)
     (by decide) (by decide)⟩

/-- C5 counterexample: with the default configuration, resolving episode 730
with source fabre yields add_bb_subs = false and keep_existing_subs = true,
contradicting the claimed base policy add_bb_subs = true and
keep_existing_subs = false; rename_existing_bb_track = true does hold. -/
theorem claim_c5_counterexample :
    (get_episode_config defaultConfig 730 "fabre").1.add_bb_subs = some false ∧
    (get_episode_config defaultConfig 730 "fabre").1.keep_existing_subs = some true ∧
    (get_episode_config defaultConfig 730 "fabre").1.rename_existing_bb_track = some true := by
  decide

/-- C5 amended: for every episode in 724 to 753 and every non-bilibili source
with no user override, the resolved policy is rename_existing_bb_track = true
together with keep_existing_subs = true, add_fan_subs = true and
add_bb_subs = false. -/
theorem claim_c5_range_724_753 (cfg : Config) (ep : Nat) (src : String)
    (hov : cfg.episodes_724_753 = none) (h1 : 724 ≤ ep) (h2 : ep ≤ 753)
    (hs : src ≠ "bilibili") :
    (get_episode_config cfg ep src).1 =
      { keep_existing_subs := some true, add_fan_subs := some true,
        add_bb_subs := some false, rename_existing_bb_track := some true } ∧
    (get_episode_config cfg ep src).2 = cfg := by
  simp only [get_episode_config, hov]
  rw [if_neg (by rintro ⟨-, -, hle⟩; omega), if_neg (by omega), if_neg (by omega),
    if_pos ⟨h1, h2⟩, if_neg hs]
  exact ⟨rfl, rfl⟩

theorem claim_c5_range_724_753_witness :
    (defaultConfig.episodes_724_753 = none ∧ 724 ≤ 730 ∧ 730 ≤ 753 ∧
     "fabre" ≠ "bilibili") ∧
    ((get_episode_config defaultConfig 730 "fabre").1 =
      { keep_existing_subs := some true, add_fan_subs := some true,
        add_bb_subs := some false, rename_existing_bb_track := some true } ∧
     (get_episode_config defaultConfig 730 "fabre").2 = defaultConfig) :=
  ⟨⟨rfl, by omega, by omega, by decide⟩,
   claim_c5_range_724_753 defaultConfig 730 "fabre" rfl (by omega) (by omega) (by decide)⟩

/-- Resolution leaves the configuration untouched whenever no user override is
stored for range 724 to 753, since that is the only dict the source mutates. -/
theorem gec_snd_of_no_override (cfg : Config) (ep : Nat) (src : String)
    (h : cfg.episodes_724_753 = none) : (get_episode_config cfg ep src).2 = cfg := by
  simp only [get_episode_config, h]
  split_ifs <;> rfl

/-- A user override dict stored for range 724 to 753, as loaded from a config
file; its fields mirror the hardcoded default for that range. -/
def cfgOverride724 : Config :=
  { defaultConfig with
    episodes_724_753 := some
      { keep_existing_subs := some true, add_fan_subs := some true,
        add_bb_subs := some false, rename_existing_bb_track := some true } }

/-- C4 counterexample: with a user override stored for range 724 to 753, a
bilibili resolution mutates the stored configuration, and an interleaved
bilibili call changes the result of a later fabre call with identical inputs,
refuting purity and interleaving-independence. -/
theorem claim_c4_counterexample :
    (get_episode_config cfgOverride724 730 "bilibili").2 ≠ cfgOverride724 ∧
    (get_episode_config ((get_episode_config cfgOverride724 730 "bilibili").2)
        730 "fabre").1 ≠
      (get_episode_config cfgOverride724 730 "fabre").1 := by decide

/-- C4 amended: resolution is deterministic, and it is pure exactly when no
user override is stored for range 724 to 753: in that case the configuration is
returned unchanged, repeated calls with identical inputs return identical
policies, and interleaving a call with any other episode and source (bilibili
included) does not change a later identical call's result. -/
theorem claim_c4_pure_no_override (cfg : Config) (ep ep2 : Nat) (src src2 : String)
    (h : cfg.episodes_724_753 = none) :
    (get_episode_config cfg ep src).2 = cfg ∧
    (get_episode_config ((get_episode_config cfg ep src).2) ep src).1 =
      (get_episode_config cfg ep src).1 ∧
    (get_episode_config ((get_episode_config cfg ep2 src2).2) ep src).1 =
      (get_episode_config cfg ep src).1 := by
  have hp := gec_snd_of_no_override cfg ep src h
  have hp2 := gec_snd_of_no_override cfg ep2 src2 h
  exact ⟨hp, by rw [hp], by rw [hp2]⟩

theorem claim_c4_pure_no_override_witness :
    defaultConfig.episodes_724_753 = none ∧
    ((get_episode_config defaultConfig 730 "fabre").2 = defaultConfig ∧
     (get_episode_config ((get_episode_config defaultConfig 730 "fabre").2)
         730 "fabre").1 =
       (get_episode_config defaultConfig 730 "fabre").1 ∧
     (get_episode_config ((get_episode_config defaultConfig 730 "bilibili").2)
         730 "fabre").1 =
       (get_episode_config defaultConfig 730 "fabre").1) :=
  ⟨rfl, claim_c4_pure_no_override defaultConfig 730 730 "fabre" "bilibili" rfl⟩

/-- C3 counterexample: episode 730 lies inside the claimed valid range 124 to
753 and every path exists on disk, yet the bb locator returns none: the code's
bb range ends at 723, so no plain-variant filename is used for 724 to 753. -/
theorem claim_c3_counterexample :
    (124 ≤ 730 ∧ 730 ≤ 753) ∧
    get_subtitle_path defaultDirs (fun _ => true) 730 "bb" = none := by decide

/-- C3 amended: the bb locator returns none outside 124 to 723; inside that
range it builds the Remastered filename exactly for 124 to 173 and the plain
filename for 174 to 723, returning the path precisely when the file exists; and
any returned path exists on disk. -/
theorem claim_c3_bb_locator (dirs : Directories) (exists_fs : FPath → Bool) (ep : Nat) :
    ((ep < 124 ∨ 723 < ep) → get_subtitle_path dirs exists_fs ep "bb" = none) ∧
    (124 ≤ ep → ep ≤ 173 → get_subtitle_path dirs exists_fs ep "bb" =
      (if exists_fs ⟨dirs.bb_subs_dir,
          "[Fabre-RAW] Detective Conan Remastered " ++ pad4 ep ++ " [NetflixJP] [1080p].srt"⟩ then
        some ⟨dirs.bb_subs_dir,
          "[Fabre-RAW] Detective Conan Remastered " ++ pad4 ep ++ " [NetflixJP] [1080p].srt"⟩
      else none)) ∧
    (174 ≤ ep → ep ≤ 723 → get_subtitle_path dirs exists_fs ep "bb" =
      (if exists_fs ⟨dirs.bb_subs_dir,
          "[Fabre-RAW] Detective Conan " ++ pad4 ep ++ " [NetflixJP] [1080p].srt"⟩ then
        some ⟨dirs.bb_subs_dir,
          "[Fabre-RAW] Detective Conan " ++ pad4 ep ++ " [NetflixJP] [1080p].srt"⟩
      else none)) ∧
    (∀ p, get_subtitle_path dirs exists_fs ep "bb" = some p → exists_fs p = true) := by
  have hdef : get_subtitle_path dirs exists_fs ep "bb" =
      (if 124 ≤ ep ∧ ep ≤ 173 then
        (if exists_fs ⟨dirs.bb_subs_dir,
            "[Fabre-RAW] Detective Conan Remastered " ++ pad4 ep ++ " [NetflixJP] [1080p].srt"⟩ then
          some ⟨dirs.bb_subs_dir,
            "[Fabre-RAW] Detective Conan Remastered " ++ pad4 ep ++ " [NetflixJP] [1080p].srt"⟩
        else none)
      else if 174 ≤ ep ∧ ep ≤ 723 then
        (if exists_fs ⟨dirs.bb_subs_dir,
            "[Fabre-RAW] Detective Conan " ++ pad4 ep ++ " [NetflixJP] [1080p].srt"⟩ then
          some ⟨dirs.bb_subs_dir,
            "[Fabre-RAW] Detective Conan " ++ pad4 ep ++ " [NetflixJP] [1080p].srt"⟩
        else none)
      else none) := by
    simp [get_subtitle_path]
  refine ⟨?_, ?_, ?_, ?_⟩
  · intro h
    have hc1 : ¬(124 ≤ ep ∧ ep ≤ 173) := by omega
    have hc2 : ¬(174 ≤ ep ∧ ep ≤ 723) := by omega
    rw [hdef, if_neg hc1, if_neg hc2]
  · intro h1 h2
    rw [hdef, if_pos ⟨h1, h2⟩]
  · intro h1 h2
    have hc1 : ¬(124 ≤ ep ∧ ep ≤ 173) := by omega
    rw [hdef, if_neg hc1, if_pos ⟨h1, h2⟩]
  · intro p hp
    rw [hdef] at hp
    split_ifs at hp <;> (cases hp; assumption)

theorem claim_c3_bb_locator_witness :
    get_subtitle_path defaultDirs (fun _ => true) 150 "bb" =
      some ⟨defaultDirs.bb_subs_dir,
        "[Fabre-RAW] Detective Conan Remastered " ++ pad4 150 ++ " [NetflixJP] [1080p].srt"⟩ ∧
    get_subtitle_path defaultDirs (fun _ => true) 800 "bb" = none := by
  constructor
  · have h := (claim_c3_bb_locator defaultDirs (fun _ => true) 150).2.1 (by omega) (by omega)
    simpa using h
  · exact (claim_c3_bb_locator defaultDirs (fun _ => true) 800).1 (by omega)

/-- C7: without an explicit output_format the name is the 480p form exactly for
source reghost-fabre and the remastered form for every other source; an
explicit output_format of remastered or 480p overrides the source default; and
the two concrete examples hold. -/
theorem claim_c7_output_name (ep : Nat) (src : String) (c : EpConfig) :
    (c.output_format = none →
      get_output_filename ep src c =
        (if src = "reghost-fabre" then name_480 ep else remastered_name ep)) ∧
    (c.output_format = some "remastered" →
      get_output_filename ep src c = remastered_name ep) ∧
    (c.output_format = some "480p" →
      get_output_filename ep src c = name_480 ep) ∧
    get_output_filename 6 "crunchyroll" {} = "Detective Conan Remastered 0006 [1080p].mkv" ∧
    get_output_filename 50 "reghost-fabre" {} = "Detective Conan 0050 [480p].mkv" := by
  refine ⟨?_, ?_, ?_, by decide, by decide⟩
  · intro h
    simp only [get_output_filename, h]
    rw [if_neg (by decide), if_neg (by decide)]
    split_ifs <;> rfl
  · intro h
    simp [get_output_filename, h]
  · intro h
    simp [get_output_filename, h]

theorem claim_c7_output_name_witness :
    (({} : EpConfig).output_format = none) ∧
    get_output_filename 6 "crunchyroll" {} =
      (if ("crunchyroll" : String) = "reghost-fabre" then name_480 6 else remastered_name 6) :=
  ⟨rfl, (claim_c7_output_name 6 "crunchyroll" {}).1 rfl⟩

/-- C6: in every built mux plan, added subtitle tracks receive metadata at
output subtitle indices starting at 1 when existing tracks are kept and at 0
otherwise, incremented once per added track in the fixed order fan before bb:
with keep and both tracks the fan index is 1 and the bb index is 2, without
keep they are 0 and 1. -/
theorem claim_c6_mux_indices (ffmpeg : String) (labels : SubtitleLabels)
    (video_path out fanP bbP : FPath) (keep ren fanAdd bbAdd : Bool) :
    (mux_subtitles_advanced ffmpeg labels video_path
      (if fanAdd then some fanP else none) (if bbAdd then some bbP else none) out
      { keep_existing_subs := some keep, rename_existing_bb_track := some ren,
        add_fan_subs := some true, add_bb_subs := some true }
      (fun _ => true)).metadata =
    (if keep && ren then
      ["-metadata:s:s:0", "language=eng", "-metadata:s:s:0", "title=" ++ labels.bb_subs]
     else []) ++
    (if fanAdd then
      ["-metadata:s:s:" ++ toString (if keep then 1 else 0), "language=eng",
       "-metadata:s:s:" ++ toString (if keep then 1 else 0), "title=" ++ labels.fan_subs]
     else []) ++
    (if bbAdd then
      ["-metadata:s:s:" ++ toString ((if keep then 1 else 0) + (if fanAdd then 1 else 0)),
       "language=eng",
       "-metadata:s:s:" ++ toString ((if keep then 1 else 0) + (if fanAdd then 1 else 0)),
       "title=" ++ labels.bb_subs]
     else []) := by
  cases keep <;> cases ren <;> cases fanAdd <;> cases bbAdd <;> rfl

theorem fsWrite_ne {fs : FS} {p q : FPath} {v : Nat} (h : q ≠ p) :
    fsWrite fs p v q = fs q := by
  simp [fsWrite, h]

theorem sync_subtitle_ne {fs : FS} {sp op q : FPath} {c : Option Nat}
    (h : q ≠ op) : sync_subtitle fs sp op c q = fs q := by
  cases c with
  | some v => simp [sync_subtitle, fsWrite_ne h]
  | none =>
    cases hfs : fs sp with
    | some v => simp [sync_subtitle, hfs, fsWrite_ne h]
    | none => simp [sync_subtitle, hfs]

theorem sync_step_ne {fs : FS} {orig : Option FPath} {target q : FPath}
    {c : Option Nat} (h : q ≠ target) : sync_step fs orig target c q = fs q := by
  cases orig with
  | some sp => exact sync_subtitle_ne h
  | none => rfl

theorem mux_write_step_ne {fs : FS} {target q : FPath} {w : Option Nat}
    (h : q ≠ target) : mux_write_step fs target w q = fs q := by
  cases w with
  | some v => exact fsWrite_ne h
  | none => rfl

theorem create_backup_ne {cfg : Config} {dirs : Directories} {fs : FS}
    {video_path q : FPath} (h : q ≠ backup_path dirs video_path) :
    create_backup cfg dirs fs video_path q = fs q := by
  unfold create_backup
  split_ifs
  · cases hfs : fs video_path with
    | some v => exact fsWrite_ne h
    | none => rfl
  · rfl

theorem create_backup_keeps_video (cfg : Config) (dirs : Directories) (fs : FS)
    (video_path : FPath) :
    create_backup cfg dirs fs video_path video_path = fs video_path := by
  unfold create_backup
  split_ifs
  · cases hfs : fs video_path with
    | some v =>
      simp only [fsWrite]
      split_ifs with hq
      · rfl
      · exact hfs
    | none => exact hfs
  · rfl

/-- The configuration mutation never touches the dubbed-episode options. -/
theorem gec_preserves_dubbed (cfg : Config) (ep : Nat) (src : String) :
    (get_episode_config cfg ep src).2.skip_dubbed_episodes = cfg.skip_dubbed_episodes ∧
    (get_episode_config cfg ep src).2.dubbed_episodes = cfg.dubbed_episodes := by
  cases h : cfg.episodes_724_753 <;>
    simp only [get_episode_config, h] <;> split_ifs <;> simp

/-- C8: whenever the mux step runs and fails (non-zero exit, timeout or
exception, all reported as a failed invocation, regardless of what partial
content the muxer left at its temporary output path), episode processing
reports failure, the original video file's content is unchanged, and the
content at the canonical output path is unchanged; the mux output went only to
the temporary path and the original is removed only after a successful mux.
The path-distinctness hypotheses record that the temp-directory artifacts and
the backup copy live at paths distinct from the original and canonical output,
as the differing file names guarantee in deployment. -/
theorem claim_c8_mux_failure (cfg : Config) (dirs : Directories) (o : Oracles)
    (fs : FS) (video_path : FPath) (ep_num : Nat)
    (hdub : (cfg.skip_dubbed_episodes && cfg.dubbed_episodes.contains ep_num) = false)
    (hro : (episode_policy cfg video_path ep_num).rename_only.getD false = false)
    (hsubs : ¬(fan_original cfg dirs fs video_path ep_num = none ∧
               bb_original cfg dirs fs video_path ep_num = none))
    (hmux : o.mux_returncode_zero = false)
    (hv1 : video_path ≠ fan_synced_path dirs ep_num)
    (hv2 : video_path ≠ bb_synced_path dirs ep_num)
    (hv3 : video_path ≠ temp_output_path dirs ep_num)
    (ho1 : episode_output_path cfg video_path ep_num ≠ fan_synced_path dirs ep_num)
    (ho2 : episode_output_path cfg video_path ep_num ≠ bb_synced_path dirs ep_num)
    (ho3 : episode_output_path cfg video_path ep_num ≠ temp_output_path dirs ep_num)
    (ho4 : episode_output_path cfg video_path ep_num ≠ backup_path dirs video_path) :
    (process_episode cfg dirs o fs video_path ep_num).ok = false ∧
    (process_episode cfg dirs o fs video_path ep_num).fs video_path = fs video_path ∧
    (process_episode cfg dirs o fs video_path ep_num).fs
        (episode_output_path cfg video_path ep_num) =
      fs (episode_output_path cfg video_path ep_num) := by
  have hc1 : ((get_episode_config cfg ep_num (episode_source video_path)).2.skip_dubbed_episodes &&
      (get_episode_config cfg ep_num (episode_source video_path)).2.dubbed_episodes.contains ep_num) =
        false := by
    rw [(gec_preserves_dubbed cfg ep_num (episode_source video_path)).1,
      (gec_preserves_dubbed cfg ep_num (episode_source video_path)).2]
    exact hdub
  have hfail : ¬(o.mux_returncode_zero &&
      fsExists (mux_write_step
        (sync_step
          (sync_step (create_backup cfg dirs fs video_path)
            (fan_original cfg dirs fs video_path ep_num)
            (fan_synced_path dirs ep_num) o.fan_synced)
          (bb_original cfg dirs fs video_path ep_num)
          (bb_synced_path dirs ep_num) o.bb_synced)
        (temp_output_path dirs ep_num) o.mux_written)
      (temp_output_path dirs ep_num)) = true := by
    rw [hmux]
    simp
  have hres : process_episode cfg dirs o fs video_path ep_num =
      ⟨false,
       mux_write_step
        (sync_step
          (sync_step (create_backup cfg dirs fs video_path)
            (fan_original cfg dirs fs video_path ep_num)
            (fan_synced_path dirs ep_num) o.fan_synced)
          (bb_original cfg dirs fs video_path ep_num)
          (bb_synced_path dirs ep_num) o.bb_synced)
        (temp_output_path dirs ep_num) o.mux_written,
       (get_episode_config cfg ep_num (episode_source video_path)).2⟩ := by
    simp only [process_episode, hc1, Bool.false_eq_true, if_false, hro, if_neg hsubs,
      if_neg hfail]
  refine ⟨by rw [hres], ?_, ?_⟩
  · rw [hres]
    show mux_write_step _ _ _ video_path = fs video_path
    rw [mux_write_step_ne hv3, sync_step_ne hv2, sync_step_ne hv1,
      create_backup_keeps_video]
  · rw [hres]
    show mux_write_step _ _ _ (episode_output_path cfg video_path ep_num) =
      fs (episode_output_path cfg video_path ep_num)
    rw [mux_write_step_ne ho3, sync_step_ne ho2, sync_step_ne ho1,
      create_backup_ne ho4]

/-- A concrete episode file for exercising the mux-failure path. -/
def c8video : FPath := ⟨"base/Shows/Season 8", fabre_name 300⟩

/-- A concrete filesystem: the fan subtitle for episode 300 and the video. -/
def c8fs : FS := fun p =>
  if p = ⟨defaultDirs.fan_subs_dir, pad4 300 ++ ".ass"⟩ then some 1
  else if p = c8video then some 5
  else none

/-- Concrete collaborators: both syncs produce output, the muxer leaves a
partial file at its temporary output path but exits non-zero. -/
def c8o : Oracles := ⟨some 2, some 3, false, some 7⟩

theorem claim_c8_mux_failure_witness :
    ((defaultConfig.skip_dubbed_episodes && defaultConfig.dubbed_episodes.contains 300) = false ∧
     (episode_policy defaultConfig c8video 300).rename_only.getD false = false ∧
     ¬(fan_original defaultConfig defaultDirs c8fs c8video 300 = none ∧
       bb_original defaultConfig defaultDirs c8fs c8video 300 = none) ∧
     c8o.mux_returncode_zero = false) ∧
    ((process_episode defaultConfig defaultDirs c8o c8fs c8video 300).ok = false ∧
     (process_episode defaultConfig defaultDirs c8o c8fs c8video 300).fs c8video =
       c8fs c8video ∧
     (process_episode defaultConfig defaultDirs c8o c8fs c8video 300).fs
         (episode_output_path defaultConfig c8video 300) =
       c8fs (episode_output_path defaultConfig c8video 300)) :=
  ⟨⟨by decide, by decide, by decide, rfl⟩,
   claim_c8_mux_failure defaultConfig defaultDirs c8o c8fs c8video 300
     (by decide) (by decide) (by decide) rfl (by decide) (by decide) (by decide)
     (by decide) (by decide) (by decide) (by decide)⟩

end DCA
